import Mathlib

/-!
Shallow embedding of the Bubble data-API client base class
(src/src/BubbleDataType.ts) and verification of its specification.

Each HTTP round trip is modelled by its outcome, a value of
`AxiosResult α := Except String (Option α)`: `.error e` is a transport
failure raised by axios, `.ok none` is a response without a body
(`res.data` falsy), `.ok (some a)` is a response carrying body `a`.
Operations become pure functions of the transport outcome; where the
number of issued requests matters the function also returns the list of
requests (or cursors) issued.
-/

namespace BubbleSDK

set_option autoImplicit false

/-- Modelled from the spec: the file `src/BubbleConfig.ts` is imported by
`BubbleDataType.ts` but absent from the sources. Spec section 3 describes the
configuration as process-wide state holding the tenant application name, an
optional application version label and an API bearer token, which matches
the destructurings `const \x7b apiKey \x7d = BubbleConfig.get()` and
`const \x7b app, appVersion \x7d = BubbleConfig.get()` in the source. -/
structure BubbleConfig where
  app : String
  appVersion : Option String
  apiKey : String
deriving DecidableEq, Repr

/-- Outcome of one axios round trip: transport failure, response without a
body, or response with body `a`. -/
abbrev AxiosResult (α : Type) := Except String (Option α)

/-- JS truthiness of an optional string: `undefined` and `""` are falsy. -/
def strTruthy : Option String → Bool
  | none => false
  | some s => s ≠ ""

/-- JS string interpolation of a possibly-undefined string value. -/
def optShow : Option String → String
  | none => "undefined"
  | some s => s

/-- `const versionPart = appVersion ? "/" ++ appVersion : ""` -/
def versionPart (cfg : BubbleConfig) : String :=
  match cfg.appVersion with
  | none => ""
  | some v => if v = "" then "" else "/" ++ v

/-- The `objectUrl` getter of `BubbleDataType`. -/
def objectUrl (cfg : BubbleConfig) (type : String) : String :=
  "https://" ++ cfg.app ++ ".bubbleapps.io" ++ versionPart cfg ++ "/api/1.1/obj/" ++ type

/-- The `headers` getter of `BubbleDataType`. -/
def headers (cfg : BubbleConfig) : List (String × String) :=
  [("Authorization", "Bearer " ++ cfg.apiKey)]

/-- One HTTP request as constructed by the client. -/
structure HttpRequest where
  method : String
  url : String
  hdrs : List (String × String)
deriving DecidableEq, Repr

/-- Request issued by `getByID`: `axios.get(objectUrl ++ "/" ++ id, \x7b headers \x7d)`. -/
def getByIDRequest (cfg : BubbleConfig) (type id : String) : HttpRequest :=
  ⟨"GET", objectUrl cfg type ++ "/" ++ id, headers cfg⟩

/-- Request issued by `create`: `axios.post(objectUrl ++ "/", data, \x7b headers \x7d)`. -/
def createRequest (cfg : BubbleConfig) (type : String) : HttpRequest :=
  ⟨"POST", objectUrl cfg type ++ "/", headers cfg⟩

/-- Request issued by `search`: `axios.get(objectUrl, \x7b headers, params \x7d)`. -/
def searchRequest (cfg : BubbleConfig) (type : String) : HttpRequest :=
  ⟨"GET", objectUrl cfg type, headers cfg⟩

/-- Request issued by `save`: `axios.patch(objectUrl ++ "/" ++ _id, body, \x7b headers \x7d)`. -/
def saveRequest (cfg : BubbleConfig) (type id : String) : HttpRequest :=
  ⟨"PATCH", objectUrl cfg type ++ "/" ++ id, headers cfg⟩

/- ### Record instances and the constructor -/

/-- A concrete record instance: the fields merged into `this` by
`Object.assign(this, args)` in the constructor, as a key/value map. -/
structure Instance where
  fields : List (String × String)
deriving DecidableEq, Repr

/-- The `constructor(args)` doing `Object.assign(this, args)`: with an
`undefined` argument `Object.assign` ignores the source and the instance
keeps no fields, otherwise every key/value pair of `args` is assigned. -/
def construct (args : Option (List (String × String))) : Instance :=
  match args with
  | none => ⟨[]⟩
  | some kvs => ⟨kvs⟩

/-- The `_id` attribute of an instance, `undefined` when never assigned. -/
def idField (inst : Instance) : Option String :=
  inst.fields.lookup "_id"

/-- JS truthiness test `!this._id`: true when `_id` is missing or empty. -/
def idFalsy (inst : Instance) : Bool :=
  !(strTruthy (idField inst))

/- ### getByID -/

/-- Modelled from the spec: the file `src/types/responses.ts` is absent from
the sources. Spec section 6 gives the fetch-by-id body as
`\x7b response: record fields \x7d` or empty, matching the access
`res.data.response` in the source. -/
structure GetByIDResponse where
  response : Option (List (String × String))
deriving DecidableEq, Repr

/-- `static getByID`: throws on a missing body, otherwise constructs an
instance from `res.data.response` (which may itself be absent). -/
def getByID (out : AxiosResult GetByIDResponse) : Except String Instance :=
  match out with
  | .error e => .error e
  | .ok none => .error "Unexpected response from bubble: no body"
  | .ok (some d) => .ok (construct d.response)

/- ### create -/

/-- Modelled from the spec: the file `src/types/responses.ts` is absent from
the sources. Spec section 6 gives the create body as
`\x7b status: success-or-other, id?: string \x7d`, matching the accesses
`res.data.status` and `res.data.id` in the source. -/
structure CreateResponse where
  status : Option String
  id : Option String
deriving DecidableEq, Repr

/-- `static create`: throws on a missing body; throws embedding the status
when `res.data.status !== "success" || !res.data.id`; otherwise returns the
assigned id. -/
def create (out : AxiosResult CreateResponse) : Except String String :=
  match out with
  | .error e => .error e
  | .ok none => .error "Unexpected response from bubble: no body"
  | .ok (some d) =>
    if d.status ≠ some "success" ∨ strTruthy d.id = false then
      .error ("create request failed with status: " ++ optShow d.status)
    else .ok ((d.id).getD "")

/- ### search -/

/-- One filter constraint, passed through opaquely. -/
structure Constraint where
  key : String
  constraint_type : String
  value : String
deriving DecidableEq, Repr

/-- The optional sort option of a search configuration. -/
structure SortSpec where
  sort_field : String
  descending : Bool
deriving DecidableEq, Repr

/-- Modelled from the spec: the file `src/types/search.ts` is absent from
the sources. Spec section 4.1 lists the recognized options `constraints`,
`sort` (field name plus descending flag) and `cursor`, matching the accesses
`config.constraints`, `config.sort?.sort_field`, `config.sort?.descending`
and `config.cursor` in the source. -/
structure SearchConfig where
  constraints : Option (List Constraint)
  sort : Option SortSpec
  cursor : Option Nat
deriving DecidableEq, Repr

/-- Value of one query parameter as axios serializes it: a string, a raw
boolean, or omitted when `undefined`. -/
inductive QueryVal where
  | str (s : String)
  | bool (b : Bool)
  | omitted
deriving DecidableEq, Repr

/-- The `params` object built by `search`:
`constraints: JSON.stringify(config.constraints || [])` (kept unserialized
here), `sort_field: config.sort?.sort_field`,
`descending: config.sort?.descending ? "true" : false`,
`cursor: config.cursor`. -/
structure SearchParams where
  constraints : List Constraint
  sort_field : QueryVal
  descending : QueryVal
  cursor : Option Nat
deriving DecidableEq, Repr

/-- Builds the query parameters exactly as `search` does. -/
def searchParams (config : SearchConfig) : SearchParams :=
  { constraints := (config.constraints).getD []
  , sort_field := match config.sort with
      | some s => .str s.sort_field
      | none => .omitted
  , descending := match config.sort with
      | some s => if s.descending then .str "true" else .bool false
      | none => .bool false
  , cursor := config.cursor }

/-- One page of search results: `\x7b results, remaining \x7d`. -/
structure SearchPage (T : Type) where
  results : List T
  remaining : Int
deriving DecidableEq, Repr

/-- Modelled from the spec: the file `src/types/responses.ts` is absent from
the sources. Spec section 6 gives the search body as
`\x7b response: \x7b results, remaining \x7d \x7d`, matching the access
`res.data?.response` in the source. -/
structure SearchData (T : Type) where
  response : Option (SearchPage T)
deriving DecidableEq, Repr

/-- `static search`: throws `search request failed` when `!res.data?.response`,
otherwise returns `res.data.response`. -/
def search {T : Type} (out : AxiosResult (SearchData T)) : Except String (SearchPage T) :=
  match out with
  | .error e => .error e
  | .ok none => .error "search request failed"
  | .ok (some d) =>
    match d.response with
    | none => .error "search request failed"
    | some page => .ok page

/- ### getAll -/

/-- The page loop of `static getAll`, translated with an explicit fuel bound
on the number of iterations. `transport cursor` is the outcome of the search
request issued at that cursor. The result is `none` when the loop does not
finish within `fuel` iterations, otherwise the value returned or error
thrown paired with the list of cursors requested, in request order:

```
let cursor = 0; let results = [];
while (true) \x7b
  const res = await search(\x7b ...config, cursor \x7d);
  results = results.concat(res.results);
  if (res.remaining <= 0) break;
  cursor++;
\x7d
return results;
```
-/
def getAllAux {T : Type} (transport : Nat → AxiosResult (SearchData T)) :
    Nat → Nat → List T → Option (Except String (List T) × List Nat)
  | 0, _, _ => none
  | fuel + 1, cursor, acc =>
    match search (transport cursor) with
    | .error e => some (.error e, [cursor])
    | .ok page =>
      if page.remaining ≤ 0 then
        some (.ok (acc ++ page.results), [cursor])
      else
        match getAllAux transport fuel (cursor + 1) (acc ++ page.results) with
        | none => none
        | some (r, cs) => some (r, cursor :: cs)

/-- `static getAll`: the page loop started at cursor 0 with an empty
accumulator. -/
def getAll {T : Type} (transport : Nat → AxiosResult (SearchData T)) (fuel : Nat) :
    Option (Except String (List T) × List Nat) :=
  getAllAux transport fuel 0 []

/-- Concatenation of the results of a list of pages. -/
def concatPages {T : Type} : List (SearchPage T) → List T
  | [] => []
  | p :: ps => p.results ++ concatPages ps

/- ### getOne -/

/-- A JS runtime value, as far as the body of `getOne` can observe one:
`undefined`, `null`, a record of type `T`, a number, an array, or an object
with string keys. -/
inductive JsVal (T : Type) where
  | undefinedVal
  | null
  | record (t : T)
  | num (n : Int)
  | arr (xs : List (JsVal T))
  | obj (fields : List (String × JsVal T))

/-- Key lookup in the field list of a JS object. -/
def jsLookup {T : Type} : List (String × JsVal T) → String → Option (JsVal T)
  | [], _ => none
  | (k, v) :: rest, key => if k = key then some v else jsLookup rest key

/-- The TypeError message the JS runtime raises when reading a property of
`undefined`. -/
def typeErrorReading (key : String) : String :=
  "TypeError: Cannot read properties of undefined (reading " ++ key ++ ")"

/-- JS property access `v[key]`: an error on `undefined` and `null`, the
field (or `undefined` when missing) on an object, `undefined` on the other
values for the keys read here. -/
def jsGet {T : Type} : JsVal T → String → Except String (JsVal T)
  | .undefinedVal, key => .error (typeErrorReading key)
  | .null, key => .error ("TypeError: Cannot read properties of null (reading " ++ key ++ ")")
  | .obj fs, key => .ok ((jsLookup fs key).getD .undefinedVal)
  | _, _ => .ok .undefinedVal

/-- JS array indexing `v[i]`: an error on `undefined` and `null`, the element
(or `undefined` past the end) on an array, `undefined` otherwise. -/
def jsIndex {T : Type} : JsVal T → Nat → Except String (JsVal T)
  | .undefinedVal, _ => .error (typeErrorReading "0")
  | .null, _ => .error "TypeError: Cannot read properties of null (reading 0)"
  | .arr xs, i => .ok ((xs.get? i).getD .undefinedVal)
  | _, _ => .ok .undefinedVal

/-- JS truthiness of a runtime value. -/
def jsTruthy {T : Type} : JsVal T → Bool
  | .undefinedVal => false
  | .null => false
  | .num n => n ≠ 0
  | _ => true

/-- JS `x || y`. -/
def jsOr {T : Type} (x y : JsVal T) : JsVal T :=
  if jsTruthy x then x else y

/-- The runtime value `search` resolves to, seen as a JS object: the page
`\x7b results, remaining \x7d`. It has no `response` property. -/
def pageToJs {T : Type} (p : SearchPage T) : JsVal T :=
  .obj [("results", .arr (p.results.map .record)), ("remaining", .num p.remaining)]

/-- `static getOne`, translated property access by property access:

```
const searchResults = await this.search(config);
return searchResults.response.results[0] || null;
```
-/
def getOne {T : Type} (out : AxiosResult (SearchData T)) : Except String (JsVal T) :=
  match search out with
  | .error e => .error e
  | .ok page =>
    match jsGet (pageToJs page) "response" with
    | .error e => .error e
    | .ok r =>
      match jsGet r "results" with
      | .error e => .error e
      | .ok rs =>
        match jsIndex rs 0 with
        | .error e => .error e
        | .ok v => .ok (jsOr v .null)

/- ### save -/

/-- The precondition error message of `save`. -/
def saveIdError : String :=
  "Cannot call save on a BubbleDataType without an _id value."

/-- `save()`, an instance method:

```
const \x7b objectUrl, headers \x7d = this;   // getters read BubbleConfig.get()
if (!this._id) throw new Error("Cannot call save ...");
await axios.patch(objectUrl ++ "/" ++ this._id, Object.assign(\x7b\x7d, this), \x7b headers \x7d);
```

`cfgRes` is the outcome of reading the process-wide configuration inside the
destructured getters (modelled as fallible, see `BubbleConfig`); `transport`
is the outcome of the patch round trip. The second component is the list of
network requests issued. The transport outcome is returned as is: `save`
performs no response-body validation. -/
def save (cfgRes : Except String BubbleConfig) (type : String) (inst : Instance)
    (transport : Except String Unit) : Except String Unit × List HttpRequest :=
  match cfgRes with
  | .error e => (.error e, [])
  | .ok cfg =>
    if idFalsy inst then
      (.error saveIdError, [])
    else
      (transport, [saveRequest cfg type ((idField inst).getD "")])

/-! ## Theorems -/

/-- C1: the spec states that `getOne` performs a single `search` call and
returns the first element of the result sequence, or an explicit null marker
when it is empty, and in particular does not raise when `search` succeeds
with zero results. The code instead reads `searchResults.response.results`
although `search` already resolves to the unwrapped response page, whose
`response` property is `undefined`: for every successful search outcome,
including an empty result page, `getOne` raises a TypeError. -/
theorem getOne_raises_on_successful_search {T : Type} (page : SearchPage T) :
    getOne (.ok (some ⟨some page⟩)) = .error (typeErrorReading "results") := rfl

/-- C10: `getByID` validates only that the response has a body; when the body
is present but lacks the `response` field, it returns an instance constructed
from no fields rather than raising, while a missing body does raise. -/
theorem getByID_tolerates_missing_response_field :
    getByID (.ok (some ⟨none⟩)) = .ok ⟨[]⟩ ∧
    (∀ e, getByID (.ok (some ⟨none⟩)) ≠ .error e) ∧
    getByID (.ok none) = .error "Unexpected response from bubble: no body" := by
  refine ⟨rfl, ?_, rfl⟩
  intro e
  simp [getByID, construct]

/-- C5: `create` raises exactly when the body is absent, the status field is
not the success sentinel `"success"`, or no identifier is present in the body
(absent or empty, both falsy); in the status cases the message embeds the
returned status value, and otherwise the assigned identifier is returned. -/
theorem create_validation :
    (create (.ok none) = .error "Unexpected response from bubble: no body") ∧
    (∀ d : CreateResponse,
      (∃ m, create (.ok (some d)) = .error m) ↔
        (d.status ≠ some "success" ∨ d.id = none ∨ d.id = some "")) ∧
    (∀ d : CreateResponse,
      (d.status ≠ some "success" ∨ d.id = none ∨ d.id = some "") →
      create (.ok (some d)) =
        .error ("create request failed with status: " ++ optShow d.status)) ∧
    (∀ (d : CreateResponse) (i : String),
      d.status = some "success" → d.id = some i → i ≠ "" →
      create (.ok (some d)) = .ok i) := by
  have hfalsy : ∀ o : Option String, strTruthy o = false ↔ (o = none ∨ o = some "") := by
    intro o
    cases o with
    | none => simp [strTruthy]
    | some s => simp [strTruthy]
  refine ⟨rfl, ?_, ?_, ?_⟩
  · intro d
    rw [show (d.status ≠ some "success" ∨ d.id = none ∨ d.id = some "") ↔
        (d.status ≠ some "success" ∨ strTruthy d.id = false) by rw [hfalsy]]
    by_cases hc : d.status ≠ some "success" ∨ strTruthy d.id = false
    · simp only [create, if_pos hc]
      exact ⟨fun _ => hc, fun _ => ⟨_, rfl⟩⟩
    · simp only [create, if_neg hc]
      constructor
      · rintro ⟨m, hm⟩
        exact Except.noConfusion hm
      · intro h
        exact absurd h hc
  · intro d h
    have hc : d.status ≠ some "success" ∨ strTruthy d.id = false := by
      rw [hfalsy]
      exact h
    simp only [create, if_pos hc]
  · intro d i hs hid hne
    simp [create, hs, hid, strTruthy, hne]

/-- Witness: `create_validation` evaluated at a failed status, a missing id
and a successful creation. -/
theorem create_validation_witness :
    create (.ok (some ⟨some "MISSING_DATA", some "x"⟩)) =
      .error "create request failed with status: MISSING_DATA" ∧
    create (.ok (some ⟨some "success", none⟩)) =
      .error "create request failed with status: success" ∧
    create (.ok (some ⟨some "success", some "17x"⟩)) = .ok "17x" :=
  ⟨create_validation.2.2.1 ⟨some "MISSING_DATA", some "x"⟩ (Or.inl (by decide)),
   create_validation.2.2.1 ⟨some "success", none⟩ (Or.inr (Or.inl rfl)),
   create_validation.2.2.2 ⟨some "success", some "17x"⟩ "17x" rfl rfl (by decide)⟩

/-- C6: the `descending` query parameter is serialized as the string
`"true"` exactly when the sort option is present with its descending flag
set, as the boolean `false` otherwise (also when sort is absent), and never
as the string `"false"`. -/
theorem descending_serialization (c : SearchConfig) :
    ((searchParams c).descending = .str "true" ↔
      c.sort.map SortSpec.descending = some true) ∧
    (c.sort = none → (searchParams c).descending = .bool false) ∧
    (∀ s, c.sort = some s → s.descending = false →
      (searchParams c).descending = .bool false) ∧
    (searchParams c).descending ≠ .str "false" := by
  cases hsort : c.sort with
  | none => simp [searchParams, hsort]
  | some s =>
    cases hdesc : s.descending with
    | false => simp [searchParams, hsort, hdesc]
    | true => simp [searchParams, hsort, hdesc]

/-- Witness: `descending_serialization` evaluated at the regression example
of the spec and at an empty configuration. -/
theorem descending_serialization_witness :
    (searchParams ⟨some [⟨"status", "equals", "open"⟩],
        some ⟨"createdAt", true⟩, none⟩).descending = .str "true" ∧
    (searchParams ⟨none, none, none⟩).descending = .bool false :=
  ⟨(descending_serialization _).1.mpr rfl,
   (descending_serialization _).2.1 rfl⟩

/-- C7: the target URL of every operation is built on
`https://` ++ app ++ `.bubbleapps.io`, followed by `/` ++ appVersion exactly
when a version label is set, followed by `/api/1.1/obj/` ++ typeName, and
every request carries the header `Authorization: Bearer ` ++ apiKey. -/
theorem request_targets_and_auth (cfg : BubbleConfig) (type id : String) :
    (∀ v, cfg.appVersion = some v → v ≠ "" →
      objectUrl cfg type =
        "https://" ++ cfg.app ++ ".bubbleapps.io" ++ ("/" ++ v) ++ "/api/1.1/obj/" ++ type) ∧
    ((cfg.appVersion = none ∨ cfg.appVersion = some "") →
      objectUrl cfg type =
        "https://" ++ cfg.app ++ ".bubbleapps.io" ++ "/api/1.1/obj/" ++ type) ∧
    ((getByIDRequest cfg type id).hdrs = [("Authorization", "Bearer " ++ cfg.apiKey)] ∧
     (createRequest cfg type).hdrs = [("Authorization", "Bearer " ++ cfg.apiKey)] ∧
     (searchRequest cfg type).hdrs = [("Authorization", "Bearer " ++ cfg.apiKey)] ∧
     (saveRequest cfg type id).hdrs = [("Authorization", "Bearer " ++ cfg.apiKey)]) ∧
    ((getByIDRequest cfg type id).url = objectUrl cfg type ++ "/" ++ id ∧
     (createRequest cfg type).url = objectUrl cfg type ++ "/" ∧
     (searchRequest cfg type).url = objectUrl cfg type ∧
     (saveRequest cfg type id).url = objectUrl cfg type ++ "/" ++ id) := by
  refine ⟨?_, ?_, ⟨rfl, rfl, rfl, rfl⟩, ⟨rfl, rfl, rfl, rfl⟩⟩
  · intro v hv hne
    simp [objectUrl, versionPart, hv, hne]
  · intro hv
    rcases hv with hv | hv <;> simp [objectUrl, versionPart, hv]

/-- Witness: `request_targets_and_auth` evaluated with and without a version
label. -/
theorem request_targets_and_auth_witness :
    objectUrl ⟨"myapp", some "test", "k1"⟩ "thing" =
      "https://" ++ "myapp" ++ ".bubbleapps.io" ++ ("/" ++ "test") ++ "/api/1.1/obj/" ++ "thing" ∧
    objectUrl ⟨"myapp", none, "k1"⟩ "thing" =
      "https://" ++ "myapp" ++ ".bubbleapps.io" ++ "/api/1.1/obj/" ++ "thing" :=
  ⟨(request_targets_and_auth ⟨"myapp", some "test", "k1"⟩ "thing" "z").1 "test" rfl (by decide),
   (request_targets_and_auth ⟨"myapp", none, "k1"⟩ "thing" "z").2.1 (Or.inl rfl)⟩

/-- C4: `save` on an instance whose `_id` is missing or empty raises the
precondition error locally and issues zero requests; with a non-empty `_id`
it issues exactly one patch request and returns the transport outcome
unmodified, performing no response-body validation. -/
theorem save_precondition_and_propagation (cfg : BubbleConfig) (type : String)
    (inst : Instance) (transport : Except String Unit) :
    (idFalsy inst = true →
      save (.ok cfg) type inst transport = (.error saveIdError, [])) ∧
    (idFalsy inst = false →
      save (.ok cfg) type inst transport =
        (transport, [saveRequest cfg type ((idField inst).getD "")])) := by
  constructor
  · intro h
    simp [save, h]
  · intro h
    simp [save, h]

/-- Witness: `save_precondition_and_propagation` evaluated at an instance
without an `_id`, and at an instance with one under a failing and a
succeeding transport. -/
theorem save_precondition_and_propagation_witness :
    save (.ok ⟨"myapp", none, "k1"⟩) "thing" ⟨[]⟩ (.ok ()) = (.error saveIdError, []) ∧
    save (.ok ⟨"myapp", none, "k1"⟩) "thing" ⟨[("_id", "a1")]⟩ (.error "socket hang up") =
      (.error "socket hang up",
       [saveRequest ⟨"myapp", none, "k1"⟩ "thing" ((idField ⟨[("_id", "a1")]⟩).getD "")]) ∧
    save (.ok ⟨"myapp", none, "k1"⟩) "thing" ⟨[("_id", "a1")]⟩ (.ok ()) =
      (.ok (),
       [saveRequest ⟨"myapp", none, "k1"⟩ "thing" ((idField ⟨[("_id", "a1")]⟩).getD "")]) :=
  ⟨(save_precondition_and_propagation _ _ _ _).1 (by decide),
   (save_precondition_and_propagation _ _ _ _).2 (by decide),
   (save_precondition_and_propagation _ _ _ _).2 (by decide)⟩

/-- C9: in `save` the destructured `objectUrl` and `headers` getters read the
process-wide configuration before the `_id` precondition is checked, so on an
instance lacking an identifier a failure raised while reading the
configuration propagates with zero requests issued, preempting the
precondition error. -/
theorem save_config_read_preempts_precondition (e type : String) (inst : Instance)
    (transport : Except String Unit) (_h : idFalsy inst = true) :
    save (.error e) type inst transport = (.error e, []) ∧
    (e ≠ saveIdError → (save (.error e) type inst transport).1 ≠ .error saveIdError) := by
  refine ⟨rfl, ?_⟩
  intro hne
  simp [save, hne]

/-- Witness: `save_config_read_preempts_precondition` evaluated at an
instance without an `_id` and a failing configuration read. -/
theorem save_config_read_preempts_precondition_witness :
    save (.error "BubbleConfig not initialized") "thing" ⟨[]⟩ (.ok ()) =
      (.error "BubbleConfig not initialized", []) :=
  (save_config_read_preempts_precondition "BubbleConfig not initialized" "thing"
    ⟨[]⟩ (.ok ()) (by decide)).1

/-- C3: when the first search page reports zero results and a remaining
count of zero, `getAll` returns the empty sequence after issuing exactly the
single request at cursor 0. -/
theorem getAll_zero_matches_single_request {T : Type}
    (transport : Nat → AxiosResult (SearchData T)) (fuel : Nat)
    (h0 : search (transport 0) = .ok ⟨[], 0⟩) (hf : 0 < fuel) :
    getAll transport fuel = some (.ok [], [0]) := by
  cases fuel with
  | zero => omega
  | succ f =>
    simp [getAll, getAllAux, h0]

/-- Witness: `getAll_zero_matches_single_request` evaluated at a transport
whose first page is empty with nothing remaining. -/
theorem getAll_zero_matches_single_request_witness :
    getAll (T := Nat) (fun _ => .ok (some ⟨some ⟨[], 0⟩⟩)) 1 = some (.ok [], [0]) :=
  getAll_zero_matches_single_request (fun _ => .ok (some ⟨some ⟨[], 0⟩⟩)) 1 rfl (by decide)

/-- Helper: the page loop on a transport serving, from cursor `c` on, the
pages `ps`, with every page but the last reporting records remaining and the
last reporting none, returns the accumulator followed by the concatenated
results, having requested exactly the cursors `c, c+1, ...`. -/
theorem getAllAux_ok_pages {T : Type} (transport : Nat → AxiosResult (SearchData T)) :
    ∀ (ps : List (SearchPage T)) (c : Nat) (acc : List T) (fuel : Nat) (hne : ps ≠ [])
      (hresp : ∀ i (h : i < ps.length), search (transport (c + i)) = .ok (ps.get ⟨i, h⟩))
      (hmid : ∀ i (h : i + 1 < ps.length),
        0 < (ps.get ⟨i, Nat.lt_of_succ_lt h⟩).remaining)
      (hlast : (ps.getLast hne).remaining ≤ 0)
      (hfuel : ps.length ≤ fuel),
      getAllAux transport fuel c acc =
        some (.ok (acc ++ concatPages ps), List.range' c ps.length) := by
  intro ps
  induction ps with
  | nil =>
    intro c acc fuel hne
    exact absurd rfl hne
  | cons p rest ih =>
    intro c acc fuel hne hresp hmid hlast hfuel
    cases fuel with
    | zero => simp at hfuel
    | succ f =>
      have h0 : search (transport c) = .ok p := by
        have h := hresp 0 (by simp)
        simpa using h
      cases hrest : rest with
      | nil =>
        subst hrest
        have hp0 : p.remaining ≤ 0 := by simpa using hlast
        simp [getAllAux, h0, hp0, concatPages, List.range']
      | cons q rest2 =>
        subst hrest
        have hpos : 0 < p.remaining := by
          have h := hmid 0 (by simp)
          simpa using h
        have hnot : ¬p.remaining ≤ 0 := by omega
        have hne2 : q :: rest2 ≠ [] := by simp
        have hresp2 : ∀ i (h : i < (q :: rest2).length),
            search (transport (c + 1 + i)) = .ok ((q :: rest2).get ⟨i, h⟩) := by
          intro i h
          have h2 := hresp (i + 1) (by simpa using Nat.succ_lt_succ h)
          rw [show c + (i + 1) = c + 1 + i by omega] at h2
          simpa using h2
        have hmid2 : ∀ i (h : i + 1 < (q :: rest2).length),
            0 < ((q :: rest2).get ⟨i, Nat.lt_of_succ_lt h⟩).remaining := by
          intro i h
          have h2 := hmid (i + 1) (by simpa using Nat.succ_lt_succ h)
          simpa using h2
        have hlast2 : ((q :: rest2).getLast hne2).remaining ≤ 0 := by
          rw [List.getLast_cons hne2] at hlast
          exact hlast
        have hfuel2 : (q :: rest2).length ≤ f := by simpa using hfuel
        have ihr := ih (c + 1) (acc ++ p.results) f hne2 hresp2 hmid2 hlast2 hfuel2
        simp only [getAllAux, h0]
        rw [if_neg hnot, ihr]
        simp [concatPages, List.range', List.append_assoc]

/-- Helper: the page loop on a transport serving, from cursor `c` on, the
pages `ps` (each reporting records remaining) and then a failing search,
propagates that failure, having requested the cursors `c, ..., c + ps.length`
and returning no list. -/
theorem getAllAux_error_at {T : Type} (transport : Nat → AxiosResult (SearchData T))
    (e : String) :
    ∀ (ps : List (SearchPage T)) (c : Nat) (acc : List T) (fuel : Nat)
      (hresp : ∀ i (h : i < ps.length), search (transport (c + i)) = .ok (ps.get ⟨i, h⟩))
      (hpos : ∀ i (h : i < ps.length), 0 < (ps.get ⟨i, h⟩).remaining)
      (herr : search (transport (c + ps.length)) = .error e)
      (hfuel : ps.length < fuel),
      getAllAux transport fuel c acc = some (.error e, List.range' c (ps.length + 1)) := by
  intro ps
  induction ps with
  | nil =>
    intro c acc fuel hresp hpos herr hfuel
    cases fuel with
    | zero => omega
    | succ f =>
      have h0 : search (transport c) = .error e := by simpa using herr
      simp [getAllAux, h0, List.range']
  | cons p rest ih =>
    intro c acc fuel hresp hpos herr hfuel
    cases fuel with
    | zero => omega
    | succ f =>
      have h0 : search (transport c) = .ok p := by
        have h := hresp 0 (by simp)
        simpa using h
      have hp : 0 < p.remaining := by
        have h := hpos 0 (by simp)
        simpa using h
      have hnot : ¬p.remaining ≤ 0 := by omega
      have hresp2 : ∀ i (h : i < rest.length),
          search (transport (c + 1 + i)) = .ok (rest.get ⟨i, h⟩) := by
        intro i h
        have h2 := hresp (i + 1) (by simpa using Nat.succ_lt_succ h)
        rw [show c + (i + 1) = c + 1 + i by omega] at h2
        simpa using h2
      have hpos2 : ∀ i (h : i < rest.length), 0 < (rest.get ⟨i, h⟩).remaining := by
        intro i h
        have h2 := hpos (i + 1) (by simpa using Nat.succ_lt_succ h)
        simpa using h2
      have herr2 : search (transport (c + 1 + rest.length)) = .error e := by
        rw [show c + 1 + rest.length = c + (rest.length + 1) by omega]
        simpa using herr
      have hfuel2 : rest.length < f := by simpa using hfuel
      have ihr := ih (c + 1) (acc ++ p.results) f hresp2 hpos2 herr2 hfuel2
      simp only [getAllAux, h0]
      rw [if_neg hnot, ihr]
      simp [List.range']

/-- C2: `getAll` requests pages at cursors incrementing by 1 from 0, stops at
the first page whose reported remaining count is zero or less, and returns
exactly the concatenation of the pages' results arrays in request order. -/
theorem getAll_concatenates_pages_in_cursor_order {T : Type}
    (transport : Nat → AxiosResult (SearchData T)) (ps : List (SearchPage T))
    (fuel : Nat) (hne : ps ≠ [])
    (hresp : ∀ i (h : i < ps.length), search (transport i) = .ok (ps.get ⟨i, h⟩))
    (hmid : ∀ i (h : i + 1 < ps.length),
      0 < (ps.get ⟨i, Nat.lt_of_succ_lt h⟩).remaining)
    (hlast : (ps.getLast hne).remaining ≤ 0)
    (hfuel : ps.length ≤ fuel) :
    getAll transport fuel = some (.ok (concatPages ps), List.range ps.length) := by
  have h := getAllAux_ok_pages transport ps 0 [] fuel hne
    (by intro i hi; simpa using hresp i hi) hmid hlast hfuel
  rw [getAll, h, List.range_eq_range']
  simp

/-- Witness: `getAll_concatenates_pages_in_cursor_order` evaluated at a
two-page backing store. -/
theorem getAll_concatenates_pages_in_cursor_order_witness :
    getAll (T := Nat)
      (fun c => if c = 0 then .ok (some ⟨some ⟨[1, 2], 1⟩⟩) else .ok (some ⟨some ⟨[3], 0⟩⟩)) 2 =
      some (.ok (concatPages [⟨[1, 2], 1⟩, ⟨[3], 0⟩]), List.range 2) :=
  getAll_concatenates_pages_in_cursor_order
    (fun c => if c = 0 then .ok (some ⟨some ⟨[1, 2], 1⟩⟩) else .ok (some ⟨some ⟨[3], 0⟩⟩))
    [⟨[1, 2], 1⟩, ⟨[3], 0⟩] 2 (by decide)
    (by
      intro i h
      simp only [List.length_cons, List.length_nil] at h
      interval_cases i <;> rfl)
    (by
      intro i h
      simp only [List.length_cons, List.length_nil] at h
      have h0 : i = 0 := by omega
      subst h0
      show (0 : Int) < 1
      decide)
    (by decide) (by decide)

/-- C8: when some search call fails mid-loop, `getAll` propagates that
failure and returns no value: the Except carries the error alone, and the
results accumulated from the earlier pages are never returned. -/
theorem getAll_midloop_failure_discards {T : Type}
    (transport : Nat → AxiosResult (SearchData T)) (ps : List (SearchPage T))
    (e : String) (fuel : Nat)
    (hresp : ∀ i (h : i < ps.length), search (transport i) = .ok (ps.get ⟨i, h⟩))
    (hpos : ∀ i (h : i < ps.length), 0 < (ps.get ⟨i, h⟩).remaining)
    (herr : search (transport ps.length) = .error e)
    (hfuel : ps.length < fuel) :
    getAll transport fuel = some (.error e, List.range (ps.length + 1)) ∧
    (∀ l cs, getAll transport fuel ≠ some (.ok l, cs)) := by
  have h := getAllAux_error_at transport e ps 0 [] fuel
    (by intro i hi; simpa using hresp i hi) hpos (by simpa using herr) hfuel
  have hmain : getAll transport fuel = some (.error e, List.range (ps.length + 1)) := by
    rw [getAll, h, List.range_eq_range']
  refine ⟨hmain, ?_⟩
  intro l cs hcontra
  rw [hmain] at hcontra
  simp at hcontra

/-- Witness: `getAll_midloop_failure_discards` evaluated at a transport whose
first page succeeds with records remaining and whose second request fails. -/
theorem getAll_midloop_failure_discards_witness :
    getAll (T := Nat)
      (fun c => if c = 0 then .ok (some ⟨some ⟨[5], 2⟩⟩) else .error "network down") 2 =
      some (.error "network down", List.range 2) :=
  (getAll_midloop_failure_discards
    (fun c => if c = 0 then .ok (some ⟨some ⟨[5], 2⟩⟩) else .error "network down")
    [⟨[5], 2⟩] "network down" 2
    (by
      intro i h
      simp only [List.length_cons, List.length_nil] at h
      interval_cases i
      rfl)
    (by
      intro i h
      simp only [List.length_cons, List.length_nil] at h
      have h0 : i = 0 := by omega
      subst h0
      show (0 : Int) < 2
      decide)
    rfl (by decide)).1

end BubbleSDK
